import Mathlib

/-!
Verification development for the paradedb-django expression compiler.

The definitions below are a shallow embedding of the Python sources:
`src/paradedb/expressions.py` (expression AST and its `as_sql` lowering),
`src/paradedb/settings.py` (configuration), `src/paradedb/utils.py`
(`postgres_array`), `src/paradedb/indexes.py` (the BM25 index `WITH (...)`
clause builder), and `src/paradedb/sql.py` (the memoized version probe,
modelled as an explicit `version : String` argument threaded through).

Machine-level collaborators that the sources call into are modelled
explicitly and marked as such: `composeSql` stands for Django's
`connection.ops.compose_sql` (client-side interpolation of `%s`
placeholders), `Json.dumps` for Python's `json.dumps` with its default
separators, and `pyStrLt` for Python's lexicographic (code-point) string
comparison.
-/

/-- A SQL-bindable scalar value: the subset of Python values the expression
compiler binds as parameters (`str`, `int`, `None`). -/
inductive Val where
  | str (s : String)
  | int (n : Int)
  | null
deriving Repr, DecidableEq

/-- Replace every occurrence of the character `c` in `s` by the character
list `r`.  Executable stand-in for Python's `str.replace` with a
single-character pattern (used by `postgres_array`'s escaping). -/
def strReplaceChar (s : String) (c : Char) (r : List Char) : String :=
  String.mk (s.data.flatMap fun x => if x = c then r else [x])

/-- `format_value` from `postgres_array` in `src/paradedb/utils.py`:
`None` becomes `NULL`; a string has every backslash doubled, then every
single quote doubled, and is wrapped in single quotes; any other scalar is
its direct string conversion. -/
def pgFormatValue : Val → String
  | .null => "NULL"
  | .str v =>
      "'" ++ strReplaceChar (strReplaceChar v '\\' ['\\', '\\']) '\'' ['\'', '\''] ++ "'"
  | .int n => toString n

/-- `postgres_array` from `src/paradedb/utils.py`: join the individually
encoded elements with `", "` inside `ARRAY[...]`. -/
def postgres_array (l : List Val) : String :=
  "ARRAY[" ++ String.intercalate ", " (l.map pgFormatValue) ++ "]"

/-- How psycopg renders one bound parameter when Django's
`connection.ops.compose_sql` interpolates it client-side (model of an
external collaborator): strings are quote-doubled and single-quoted,
integers printed, `None` becomes `NULL`. -/
def renderParam : Val → String
  | .str s => "'" ++ strReplaceChar s '\'' ['\'', '\''] ++ "'"
  | .int n => toString n
  | .null => "NULL"

/-- Character-level worker for `composeSql`: each `%s` consumes the next
parameter; other characters pass through. -/
def composeSqlAux : List Char → List Val → List Char
  | [], _ => []
  | '%' :: 's' :: rest, p :: ps => (renderParam p).data ++ composeSqlAux rest ps
  | c :: rest, ps => c :: composeSqlAux rest ps

/-- Model of Django's `connection.ops.compose_sql(sql, params)`: substitute
the `%s` placeholders of `sql` by the rendered `params`, in order. -/
def composeSql (sql : String) (params : List Val) : String :=
  String.mk (composeSqlAux sql.data params)

/-- Compose an `(sql, params)` pair into a single SQL string. -/
def composeSql1 (p : String × List Val) : String :=
  composeSql p.1 p.2

/-- Python truthiness of an optional string: `None` and `""` are falsy. -/
def optStrTruthy : Option String → Bool
  | none => false
  | some s => !(s == "")

/-- Lexicographic code-point comparison of character lists, mirroring
Python's `<` on `str`. -/
def pyStrLtAux : List Char → List Char → Bool
  | [], [] => false
  | [], _ :: _ => true
  | _ :: _, [] => false
  | a :: as, b :: bs => if a < b then true else if b < a then false else pyStrLtAux as bs

/-- Python's `a < b` on strings. -/
def pyStrLt (a b : String) : Bool :=
  pyStrLtAux a.data b.data

/-- Python's `a >= b` on strings (total order, so `¬ a < b`). -/
def pyStrGe (a b : String) : Bool :=
  !pyStrLt a b

/-- The configuration read by the compiler (`src/paradedb/settings.py`):
the global force-current flag `PARADEBD_USE_V2` (spelling as in the source)
and the always-legacy function-name list `PARADEDB_USE_LEGACY`. -/
structure PdbSettings where
  PARADEBD_USE_V2 : Bool
  PARADEDB_USE_LEGACY : List String
deriving Repr, DecidableEq

/-- The settings defaults from `src/paradedb/settings.py`:
`PARADEBD_USE_V2 = False`, `PARADEDB_USE_LEGACY = ["term", "match"]`. -/
def defaultSettings : PdbSettings :=
  ⟨false, ["term", "match"]⟩

/-- `_get_schema` from `src/paradedb/expressions.py`.  The memoized
`get_version()` probe result is passed in as `version`.  `func` is the
optional function name; Python's `if func and func in ...` makes an empty
name falsy. -/
def _get_schema (cfg : PdbSettings) (version : String) (legacy : Bool)
    (func : Option String) : String :=
  if legacy then "paradedb"
  else if (match func with
           | some f => !(f == "") && cfg.PARADEDB_USE_LEGACY.contains f
           | none => false) then "paradedb"
  else if cfg.PARADEBD_USE_V2 then "pdb"
  else if pyStrGe version "0.20" then "pdb"
  else "paradedb"

/-- `_make_schema_sql` from `src/paradedb/expressions.py`: when a truthy
`lhs` is given, emit `lhs op schema.func(args)`; otherwise emit the bare
call, prefixed by `key_field op ` when a truthy `key_field` is given. -/
def _make_schema_sql (func : String) (args : List String) (schema : String)
    (lhs : Option String) (op : String) (key_field : Option String) : String :=
  if optStrTruthy lhs then
    (lhs.getD "") ++ " " ++ op ++ " " ++ schema ++ "." ++ func ++ "(" ++
      String.intercalate "," args ++ ")"
  else
    let sql := schema ++ "." ++ func ++ "(" ++ String.intercalate "," args ++ ")"
    if optStrTruthy key_field then (key_field.getD "") ++ " " ++ op ++ " " ++ sql
    else sql

/-- The state of a `Term` expression node (`Term.__init__` in
`src/paradedb/expressions.py`), with the mutable compile flags
`ignore_lhs` and `legacy` carried as fields as in the source. -/
structure TermNode where
  pfield : String
  value : Val
  enum_cast_field : Option String := none
  key_field : String := "id"
  match_op : Bool := false
  ignore_lhs : Bool := false
  legacy : Bool := false
deriving Repr, DecidableEq

/-- `Term.as_sql` from `src/paradedb/expressions.py`: under the legacy
schema the field is bound as the first `%s` argument; otherwise the field
becomes the left-hand side unless `ignore_lhs` is set; `match_op` passes
the key field into `_make_schema_sql`. -/
def Term_as_sql (cfg : PdbSettings) (version : String) (t : TermNode) :
    String × List Val :=
  let schema := _get_schema cfg version t.legacy (some "term")
  let include_field := schema == "paradedb"
  let args0 : List String := if include_field then ["%s"] else []
  let params0 : List Val := if include_field then [Val.str t.pfield] else []
  let args := args0 ++ [match t.enum_cast_field with
                        | some c => if c == "" then "%s" else "%s::" ++ c
                        | none => "%s"]
  let params := params0 ++ [t.value]
  (_make_schema_sql "term" args schema
    (if !t.ignore_lhs && !include_field then some t.pfield else none)
    "@@@"
    (if t.match_op then some t.key_field else none),
   params)

-- Sanity examples (legacy default settings bind the field; force-current
-- settings fold it into the left-hand side):
example :
    Term_as_sql defaultSettings "0.17"
      { pfield := "rank", value := .int 100, match_op := true } =
    ("id @@@ paradedb.term(%s,%s)", [.str "rank", .int 100]) := by decide

example :
    Term_as_sql ⟨true, []⟩ "0.17"
      { pfield := "rank", value := .int 100, match_op := true } =
    ("rank @@@ pdb.term(%s)", [.int 100]) := by decide

/-- Flag overrides a combinator applies to a child before compiling it,
modelling the source's attribute mutation (`q.ignore_lhs = True;
q.legacy = True` in `Boolean.as_sql`/`TermSet.as_sql`, `legacy` only in
`ConstScore.as_sql`, nothing in `DisjunctionMax.as_sql`/`Boost.as_sql`).
`none` leaves the child's own stored flag in place. -/
structure FlagOv where
  ovIgnoreLhs : Option Bool := none
  ovLegacy : Option Bool := none
deriving Repr, DecidableEq

/-- Apply a flag override to a `Term` node's stored compile flags.  On the
combinator nodes the mutated attributes are never read back, so overrides
only take effect on leaves, as in the source. -/
def applyOv (ov : FlagOv) (t : TermNode) : TermNode :=
  { t with ignore_lhs := ov.ovIgnoreLhs.getD t.ignore_lhs,
           legacy := ov.ovLegacy.getD t.legacy }

/-- The combinator fragment of the expression AST
(`src/paradedb/expressions.py`), with `Term` as the leaf predicate.
Constructor arguments follow the Python `__init__` fields. -/
inductive PExpr where
  | term (t : TermNode)
  | termSet (terms : List TermNode) (key_field : String) (match_op : Bool)
  | boolean (must must_not should : List PExpr) (key_field : String) (match_op : Bool)
  | disjunctionMax (disjuncts : List PExpr) (tie_breaker : Int) (key_field : String)
      (match_op : Bool)
  | boost (factor : Val) (query : PExpr) (key_field : String) (match_op : Bool)
  | constScore (score : Val) (query : PExpr) (key_field : String) (match_op : Bool)
deriving Repr

/-- `Boolean.as_sql`'s argument-list assembly: one `<group> := ARRAY[...]`
entry per non-empty list of composed child SQL fragments, in must /
must_not / should order. -/
def booleanParamSqls (must_inner must_not_inner should_inner : List String) :
    List String :=
  (if must_inner.isEmpty then []
   else ["must := ARRAY[" ++ String.intercalate ", " must_inner ++ "]"])
  ++ (if must_not_inner.isEmpty then []
      else ["must_not := ARRAY[" ++ String.intercalate ", " must_not_inner ++ "]"])
  ++ (if should_inner.isEmpty then []
      else ["should := ARRAY[" ++ String.intercalate ", " should_inner ++ "]"])

/-- `TermSet.as_sql`'s per-term compilation: each term is compiled with
`ignore_lhs` and `legacy` forced to `True` and composed into plain SQL. -/
def termSetChildren (cfg : PdbSettings) (version : String)
    (terms : List TermNode) : List String :=
  terms.map fun t =>
    composeSql1 (Term_as_sql cfg version (applyOv ⟨some true, some true⟩ t))

mutual

/-- The `as_sql` lowering of `src/paradedb/expressions.py` for the
combinator fragment.  `ov` is the flag override the parent imposed on this
node before compiling it (the top-level call uses `{}`). -/
def PExpr.as_sql (cfg : PdbSettings) (version : String) :
    FlagOv → PExpr → String × List Val
  | ov, .term t => Term_as_sql cfg version (applyOv ov t)
  | _, .termSet terms kf mo =>
      let terms_sql := termSetChildren cfg version terms
      let sql := "paradedb.term_set(terms := ARRAY[" ++
        String.intercalate ", " terms_sql ++ "])"
      (if mo then kf ++ " @@@ " ++ sql else sql, [])
  | _, .boolean must must_not should kf mo =>
      let must_inner_sqls := PExpr.overriddenChildSqls cfg version must
      let must_not_inner_sqls := PExpr.overriddenChildSqls cfg version must_not
      let should_inner_sqls := PExpr.overriddenChildSqls cfg version should
      let param_sqls_array :=
        booleanParamSqls must_inner_sqls must_not_inner_sqls should_inner_sqls
      let sql := "paradedb.boolean(" ++ String.intercalate ", " param_sqls_array ++ ")"
      (if mo then kf ++ " @@@ " ++ sql else sql, [])
  | _, .disjunctionMax ds tb kf mo =>
      let inner_queries := PExpr.plainChildSqls cfg version ds
      let query_sql := String.intercalate ", " inner_queries
      let sql := "paradedb.disjunction_max(ARRAY[" ++ query_sql ++
        "], tie_breaker:=" ++ toString tb ++ ")"
      (if mo then kf ++ " @@@ " ++ sql else sql, [])
  | _, .boost factor q kf mo =>
      let inner := PExpr.as_sql cfg version {} q
      let sql := "paradedb.boost(%s, " ++ composeSql1 inner ++ ")"
      (if mo then kf ++ " @@@ " ++ sql else sql, [factor])
  | _, .constScore score q kf mo =>
      let inner := PExpr.as_sql cfg version ⟨none, some true⟩ q
      let sql := "paradedb.const_score(%s::real, " ++ composeSql1 inner ++ ")"
      (if mo then kf ++ " @@@ " ++ sql else sql, [score])

/-- Children of `Boolean`: compiled after forcing `ignore_lhs = legacy =
True`, then composed (`connection.ops.compose_sql`) into plain SQL text. -/
def PExpr.overriddenChildSqls (cfg : PdbSettings) (version : String) :
    List PExpr → List String
  | [] => []
  | q :: qs =>
      composeSql1 (PExpr.as_sql cfg version ⟨some true, some true⟩ q) ::
        PExpr.overriddenChildSqls cfg version qs

/-- Children of `DisjunctionMax`: compiled with no flag overrides. -/
def PExpr.plainChildSqls (cfg : PdbSettings) (version : String) :
    List PExpr → List String
  | [] => []
  | q :: qs =>
      composeSql1 (PExpr.as_sql cfg version {} q) ::
        PExpr.plainChildSqls cfg version qs

end

/-- `Boolean.__init__`'s validation (`src/paradedb/expressions.py`): all
three groups empty (or absent, which Python's truthiness conflates with
empty) fails construction with `ValueError`.  Absent groups are modelled
as empty lists, matching `self.must or []` in `as_sql`. -/
def Boolean_mk (must must_not should : List PExpr) (key_field : String)
    (match_op : Bool) : Option PExpr :=
  if must.isEmpty && must_not.isEmpty && should.isEmpty then none
  else some (.boolean must must_not should key_field match_op)

example :
    PExpr.as_sql defaultSettings "0.17" {}
      (.disjunctionMax [.term { pfield := "rank", value := .int 100, match_op := true }]
        0 "id" false) =
    ("paradedb.disjunction_max(ARRAY[id @@@ paradedb.term('rank',100)], tie_breaker:=0)",
     []) := by decide

/-- Helper: whenever a `Term` node emits no field left-hand side (its
`ignore_lhs` flag is set, or the selected schema is the legacy one so the
field is bound as an argument instead), `match_op = true` prefixes the
identity key and the match operator onto exactly the SQL that
`match_op = false` would emit, and the parameters are unchanged. -/
theorem term_key_lead (cfg : PdbSettings) (version : String) (t : TermNode)
    (h : t.ignore_lhs = true ∨ _get_schema cfg version t.legacy (some "term") = "paradedb")
    (hk : ¬ t.key_field = "") :
    Term_as_sql cfg version t =
      ((if t.match_op then t.key_field ++ " @@@ " else "") ++
         (Term_as_sql cfg version { t with match_op := false }).1,
       (Term_as_sql cfg version { t with match_op := false }).2) := by
  have hlhs : (!t.ignore_lhs &&
      !(_get_schema cfg version t.legacy (some "term") == "paradedb")) = false := by
    rcases h with h | h
    · simp [h]
    · simp [h]
  simp only [Term_as_sql, _make_schema_sql, hlhs]
  rcases hmo : t.match_op with _ | _
  · simp [optStrTruthy]
  · simp [optStrTruthy, hk]
    apply String.ext
    simp only [String.data_append, List.append_assoc]
    rfl

/-- C1: the dialect selector `_get_schema` applies its rules in the fixed
order: per-call legacy override first; then membership of the function name
in the configured always-legacy set (even when the global force-current
flag is set); then the global force-current flag; otherwise the (memoized)
server version is compared against the fixed `"0.20"` threshold and the
current schema is chosen exactly when the version is at or above it. -/
theorem C1_dialect_rule_order (cfg : PdbSettings) (version : String)
    (f : String) (hf : ¬ f = "") :
    (∀ func, _get_schema cfg version true func = "paradedb")
    ∧ (cfg.PARADEDB_USE_LEGACY.contains f = true →
        _get_schema cfg version false (some f) = "paradedb")
    ∧ (cfg.PARADEDB_USE_LEGACY.contains f = false → cfg.PARADEBD_USE_V2 = true →
        _get_schema cfg version false (some f) = "pdb")
    ∧ (cfg.PARADEDB_USE_LEGACY.contains f = false → cfg.PARADEBD_USE_V2 = false →
        _get_schema cfg version false (some f) =
          if pyStrGe version "0.20" then "pdb" else "paradedb") := by
  refine ⟨fun func => rfl, ?_, ?_, ?_⟩
  · intro hmem
    have hmem' : f ∈ cfg.PARADEDB_USE_LEGACY := by simpa using hmem
    simp [_get_schema, hmem', hf]
  · intro hmem hv2
    have hmem' : f ∉ cfg.PARADEDB_USE_LEGACY := by simpa using hmem
    simp [_get_schema, hmem', hv2, hf]
  · intro hmem hv2
    have hmem' : f ∉ cfg.PARADEDB_USE_LEGACY := by simpa using hmem
    simp [_get_schema, hmem', hv2, hf]

/-- Witness for C1 at concrete inputs: `"term"` in the always-legacy set
beats the force-current flag; with an empty set the force-current flag and
the version threshold decide. -/
theorem C1_dialect_rule_order_witness :
    _get_schema ⟨true, ["term"]⟩ "0.19" false (some "term") = "paradedb"
    ∧ _get_schema ⟨true, []⟩ "0.19" false (some "term") = "pdb"
    ∧ _get_schema ⟨false, []⟩ "0.19" false (some "term") =
        (if pyStrGe "0.19" "0.20" then "pdb" else "paradedb") :=
  ⟨(C1_dialect_rule_order ⟨true, ["term"]⟩ "0.19" "term" (by decide)).2.1 (by decide),
   (C1_dialect_rule_order ⟨true, []⟩ "0.19" "term" (by decide)).2.2.1 (by decide) rfl,
   (C1_dialect_rule_order ⟨false, []⟩ "0.19" "term" (by decide)).2.2.2 (by decide) rfl⟩

/-- C2 counterexample: `DisjunctionMax` does not compile its child in the
suppressed (no left-hand-side) form regardless of the child's own flag: a
child `Term` with `match_op = true` keeps its `id @@@ ` identity-key
prefix inside the `ARRAY[...]`, and the container's output differs from
the output with the child's flag cleared. -/
theorem C2_container_counterexample :
    PExpr.as_sql defaultSettings "0.17" {}
      (.disjunctionMax [.term { pfield := "rank", value := .int 100, match_op := true }]
        0 "id" false)
    = ("paradedb.disjunction_max(ARRAY[id @@@ paradedb.term('rank',100)], tie_breaker:=0)",
       [])
    ∧ PExpr.as_sql defaultSettings "0.17" {}
        (.disjunctionMax [.term { pfield := "rank", value := .int 100, match_op := true }]
          0 "id" false)
      ≠ PExpr.as_sql defaultSettings "0.17" {}
        (.disjunctionMax [.term { pfield := "rank", value := .int 100, match_op := false }]
          0 "id" false) := by
  constructor
  · decide
  · decide

/-- C2 (amended): a node's `match_op` flag prefixes `"<key_field> @@@ "`
onto the inner expression exactly when the node emits no field left-hand
side: for a `Term` leaf that is the case when `ignore_lhs` is set or the
legacy schema was selected (under the current schema the field itself is
the left-hand side and `match_op` has no effect); each combinator's own
flag always prefixes the identity key.  Combinators do force the field
left-hand side off on their children — `Boolean` (and `TermSet`) force
`ignore_lhs` and `legacy`, `ConstScore` forces `legacy`, while
`DisjunctionMax` and `Boost` compile children with no overrides — but a
child's own `match_op` flag is preserved, so a child with `match_op = true`
keeps its identity-key prefix inside the container. -/
theorem C2_match_op_amended :
    (∀ (cfg : PdbSettings) (version : String) (t : TermNode),
      (t.ignore_lhs = true ∨ _get_schema cfg version t.legacy (some "term") = "paradedb") →
      ¬ t.key_field = "" →
      Term_as_sql cfg version t =
        ((if t.match_op then t.key_field ++ " @@@ " else "") ++
           (Term_as_sql cfg version { t with match_op := false }).1,
         (Term_as_sql cfg version { t with match_op := false }).2))
    ∧ (∀ (cfg : PdbSettings) (version : String) (terms : List TermNode) (kf : String),
        PExpr.as_sql cfg version {} (.termSet terms kf true) =
          (kf ++ " @@@ " ++ (PExpr.as_sql cfg version {} (.termSet terms kf false)).1,
           (PExpr.as_sql cfg version {} (.termSet terms kf false)).2))
    ∧ (∀ (cfg : PdbSettings) (version : String) (must must_not should : List PExpr)
        (kf : String),
        PExpr.as_sql cfg version {} (.boolean must must_not should kf true) =
          (kf ++ " @@@ " ++
             (PExpr.as_sql cfg version {} (.boolean must must_not should kf false)).1,
           (PExpr.as_sql cfg version {} (.boolean must must_not should kf false)).2))
    ∧ (∀ (cfg : PdbSettings) (version : String) (ds : List PExpr) (tb : Int) (kf : String),
        PExpr.as_sql cfg version {} (.disjunctionMax ds tb kf true) =
          (kf ++ " @@@ " ++ (PExpr.as_sql cfg version {} (.disjunctionMax ds tb kf false)).1,
           (PExpr.as_sql cfg version {} (.disjunctionMax ds tb kf false)).2))
    ∧ (∀ (cfg : PdbSettings) (version : String) (factor : Val) (q : PExpr) (kf : String),
        PExpr.as_sql cfg version {} (.boost factor q kf true) =
          (kf ++ " @@@ " ++ (PExpr.as_sql cfg version {} (.boost factor q kf false)).1,
           (PExpr.as_sql cfg version {} (.boost factor q kf false)).2))
    ∧ (∀ (cfg : PdbSettings) (version : String) (score : Val) (q : PExpr) (kf : String),
        PExpr.as_sql cfg version {} (.constScore score q kf true) =
          (kf ++ " @@@ " ++ (PExpr.as_sql cfg version {} (.constScore score q kf false)).1,
           (PExpr.as_sql cfg version {} (.constScore score q kf false)).2))
    ∧ (∀ (cfg : PdbSettings) (version : String) (q : PExpr) (qs : List PExpr),
        PExpr.overriddenChildSqls cfg version (q :: qs) =
          composeSql1 (PExpr.as_sql cfg version ⟨some true, some true⟩ q) ::
            PExpr.overriddenChildSqls cfg version qs)
    ∧ (∀ (cfg : PdbSettings) (version : String) (q : PExpr) (qs : List PExpr),
        PExpr.plainChildSqls cfg version (q :: qs) =
          composeSql1 (PExpr.as_sql cfg version {} q) ::
            PExpr.plainChildSqls cfg version qs)
    ∧ (∀ (cfg : PdbSettings) (version : String) (t : TermNode),
        PExpr.as_sql cfg version ⟨some true, some true⟩ (.term t) =
          Term_as_sql cfg version { t with ignore_lhs := true, legacy := true })
    ∧ (∀ (cfg : PdbSettings) (version : String) (t : TermNode),
        ¬ t.key_field = "" → t.match_op = true →
        (PExpr.as_sql cfg version ⟨some true, some true⟩ (.term t)).1 =
          t.key_field ++ " @@@ " ++
            (Term_as_sql cfg version
              { t with match_op := false, ignore_lhs := true, legacy := true }).1) := by
  refine ⟨term_key_lead, ?_, ?_, ?_, ?_, ?_, ?_, ?_, ?_, ?_⟩
  · intro cfg version terms kf
    simp [PExpr.as_sql]
  · intro cfg version must must_not should kf
    simp [PExpr.as_sql]
  · intro cfg version ds tb kf
    simp [PExpr.as_sql]
  · intro cfg version factor q kf
    simp [PExpr.as_sql]
  · intro cfg version score q kf
    simp [PExpr.as_sql]
  · intro cfg version q qs
    rfl
  · intro cfg version q qs
    rfl
  · intro cfg version t
    rfl
  · intro cfg version t hk hmo
    have h := term_key_lead cfg version
      { t with ignore_lhs := true, legacy := true } (Or.inl rfl) hk
    have heq : PExpr.as_sql cfg version ⟨some true, some true⟩ (.term t) =
        Term_as_sql cfg version { t with ignore_lhs := true, legacy := true } := rfl
    rw [heq, h]
    simp [hmo]

/-- Witness for C2 (amended) at concrete inputs: a legacy-dialect `Term`
with `match_op = true` is the identity-key prefix plus the bare call, and
the same holds after the `Boolean`-child override. -/
theorem C2_match_op_amended_witness :
    Term_as_sql defaultSettings "0.17"
      { pfield := "rank", value := .int 100, match_op := true } =
      ((if true then "id" ++ " @@@ " else "") ++
         (Term_as_sql defaultSettings "0.17"
           { pfield := "rank", value := .int 100, match_op := false }).1,
       (Term_as_sql defaultSettings "0.17"
         { pfield := "rank", value := .int 100, match_op := false }).2)
    ∧ (PExpr.as_sql defaultSettings "0.17" ⟨some true, some true⟩
        (.term { pfield := "rank", value := .int 100, match_op := true })).1 =
      "id" ++ " @@@ " ++
        (Term_as_sql defaultSettings "0.17"
          { pfield := "rank", value := .int 100, match_op := false,
            ignore_lhs := true, legacy := true }).1 :=
  ⟨C2_match_op_amended.1 defaultSettings "0.17"
      { pfield := "rank", value := .int 100, match_op := true }
      (Or.inr (by decide)) (by decide),
   C2_match_op_amended.2.2.2.2.2.2.2.2.2 defaultSettings "0.17"
      { pfield := "rank", value := .int 100, match_op := true }
      (by decide) rfl⟩

/-- C3 counterexample: compiling `Term(field="rank", value=100,
match_op=True)` under the legacy dialect binds the field name as a
parameter too, so the bound parameter list is `["rank", 100]`, not
`[100]`, and the composed legacy SQL quotes the field
(`paradedb.term('rank',100)`), not `paradedb.term(rank, 100)`; under the
current dialect the left-hand side is the field `rank`, not the identity
key `id`. -/
theorem C3_term_scenario_counterexample :
    (Term_as_sql defaultSettings "0.17"
        { pfield := "rank", value := .int 100, match_op := true }).2 ≠ [Val.int 100]
    ∧ composeSql1 (Term_as_sql defaultSettings "0.17"
        { pfield := "rank", value := .int 100, match_op := true }) ≠
      "id @@@ paradedb.term(rank, 100)"
    ∧ (Term_as_sql ⟨false, []⟩ "0.20"
        { pfield := "rank", value := .int 100, match_op := true }).1 ≠
      "id @@@ pdb.term(%s)"
    ∧ composeSql1 (Term_as_sql ⟨false, []⟩ "0.20"
        { pfield := "rank", value := .int 100, match_op := true }) ≠
      "id @@@ pdb.term(100)" := by
  refine ⟨?_, ?_, ?_, ?_⟩ <;> decide

/-- C3 (amended): `Term(field="rank", value=100, match_op=True)` compiles
under the legacy dialect to `"id @@@ paradedb.term(%s,%s)"` with bound
parameters `["rank", 100]` (the field is passed as the first bound
function argument; client-side composition gives
`"id @@@ paradedb.term('rank',100)"`); under the current dialect (which
requires removing `"term"` from the default always-legacy set) it compiles
to `"rank @@@ pdb.term(%s)"` with bound parameters `[100]` — the field
name becomes the emitted left-hand column qualifier, and the identity-key
prefix requested by `match_op` is not added because the field occupies the
left-hand side. -/
theorem C3_term_scenario_amended :
    Term_as_sql defaultSettings "0.17"
        { pfield := "rank", value := .int 100, match_op := true } =
      ("id @@@ paradedb.term(%s,%s)", [.str "rank", .int 100])
    ∧ composeSql1 (Term_as_sql defaultSettings "0.17"
        { pfield := "rank", value := .int 100, match_op := true }) =
      "id @@@ paradedb.term('rank',100)"
    ∧ Term_as_sql ⟨false, []⟩ "0.20"
        { pfield := "rank", value := .int 100, match_op := true } =
      ("rank @@@ pdb.term(%s)", [.int 100])
    ∧ composeSql1 (Term_as_sql ⟨false, []⟩ "0.20"
        { pfield := "rank", value := .int 100, match_op := true }) =
      "rank @@@ pdb.term(100)" := by
  refine ⟨?_, ?_, ?_, ?_⟩ <;> decide

/-- Helper: a group's composed child-SQL list is empty iff the group is. -/
theorem overriddenChildSqls_eq_nil_iff (cfg : PdbSettings) (version : String)
    (l : List PExpr) : PExpr.overriddenChildSqls cfg version l = [] ↔ l = [] := by
  cases l <;> simp [PExpr.overriddenChildSqls]

/-- Helper: if two character lists are not prefix-comparable, one cannot
start any extension of the other. -/
theorem not_prefix_of_incomparable {a b : List Char}
    (hab : ¬(a <+: b ∨ b <+: a)) (z : List Char) : ¬ a <+: b ++ z := by
  intro h
  exact hab (List.prefix_or_prefix_of_prefix h (List.prefix_append b z))

/-- Helper: a group keyword starts its own `<tag> ++ inner ++ "]"` entry. -/
theorem groupEntry_self_lead (tag inner : String) :
    tag.data <+: (tag ++ inner ++ "]").data := by
  simp only [String.data_append, List.append_assoc]
  exact List.prefix_append _ _

/-- Helper: a group keyword does not start another group's entry. -/
theorem groupEntry_not_lead {tagA tagB : String}
    (h : ¬(tagA.data <+: tagB.data ∨ tagB.data <+: tagA.data)) (inner : String) :
    ¬ tagA.data <+: (tagB ++ inner ++ "]").data := by
  simp only [String.data_append, List.append_assoc]
  exact not_prefix_of_incomparable h _

/-- The argument list `Boolean.as_sql` joins into `paradedb.boolean(...)`
for the three groups of a `Boolean` node. -/
def Boolean_arg_list (cfg : PdbSettings) (version : String)
    (must must_not should : List PExpr) : List String :=
  booleanParamSqls (PExpr.overriddenChildSqls cfg version must)
    (PExpr.overriddenChildSqls cfg version must_not)
    (PExpr.overriddenChildSqls cfg version should)

/-- Helper: a group keyword starts some entry of the boolean argument list
exactly when the corresponding slot is non-empty. -/
theorem booleanParamSqls_prefix_iff (A B C : List String) :
    ((∃ p ∈ booleanParamSqls A B C, "must := ARRAY[".data <+: p.data) ↔ ¬ A.isEmpty)
    ∧ ((∃ p ∈ booleanParamSqls A B C, "must_not := ARRAY[".data <+: p.data) ↔ ¬ B.isEmpty)
    ∧ ((∃ p ∈ booleanParamSqls A B C, "should := ARRAY[".data <+: p.data) ↔ ¬ C.isEmpty) := by
  refine ⟨⟨?_, ?_⟩, ⟨?_, ?_⟩, ⟨?_, ?_⟩⟩
  · rintro ⟨p, hp, hpre⟩ hA
    simp only [booleanParamSqls, hA, if_true, List.nil_append, List.mem_append,
      List.mem_ite_nil_left, List.mem_singleton] at hp
    rcases hp with ⟨hB, rfl⟩ | ⟨hC, rfl⟩ <;>
      exact absurd hpre (groupEntry_not_lead (by decide) _)
  · intro hA
    refine ⟨"must := ARRAY[" ++ String.intercalate ", " A ++ "]", ?_,
      groupEntry_self_lead _ _⟩
    simp [booleanParamSqls, hA]
  · rintro ⟨p, hp, hpre⟩ hB
    simp only [booleanParamSqls, hB, if_true, List.append_nil, List.mem_append,
      List.mem_ite_nil_left, List.mem_singleton] at hp
    rcases hp with ⟨hA, rfl⟩ | ⟨hC, rfl⟩ <;>
      exact absurd hpre (groupEntry_not_lead (by decide) _)
  · intro hB
    refine ⟨"must_not := ARRAY[" ++ String.intercalate ", " B ++ "]", ?_,
      groupEntry_self_lead _ _⟩
    simp [booleanParamSqls, hB]
  · rintro ⟨p, hp, hpre⟩ hC
    simp only [booleanParamSqls, hC, if_true, List.append_nil, List.mem_append,
      List.mem_ite_nil_left, List.mem_singleton] at hp
    rcases hp with ⟨hA, rfl⟩ | ⟨hB, rfl⟩ <;>
      exact absurd hpre (groupEntry_not_lead (by decide) _)
  · intro hC
    refine ⟨"should := ARRAY[" ++ String.intercalate ", " C ++ "]", ?_,
      groupEntry_self_lead _ _⟩
    simp [booleanParamSqls, hC]

/-- C4: constructing a `Boolean` node with all three groups empty (or
absent) fails; for every `Boolean` that constructs, the compiled argument
list contains a keyword-array entry for a group exactly when that group is
non-empty, so an empty group is never emitted as an empty-array keyword. -/
theorem C4_boolean_groups :
    (∀ kf mo, Boolean_mk [] [] [] kf mo = none)
    ∧ (∀ must must_not should kf mo,
        Boolean_mk must must_not should kf mo = none ↔
          (must = [] ∧ must_not = [] ∧ should = []))
    ∧ (∀ cfg version must must_not should kf,
        PExpr.as_sql cfg version {} (.boolean must must_not should kf false) =
          ("paradedb.boolean(" ++
            String.intercalate ", " (Boolean_arg_list cfg version must must_not should)
            ++ ")", []))
    ∧ (∀ cfg version must must_not should,
        ((∃ p ∈ Boolean_arg_list cfg version must must_not should,
            "must := ARRAY[".data <+: p.data) ↔ must ≠ [])
        ∧ ((∃ p ∈ Boolean_arg_list cfg version must must_not should,
            "must_not := ARRAY[".data <+: p.data) ↔ must_not ≠ [])
        ∧ ((∃ p ∈ Boolean_arg_list cfg version must must_not should,
            "should := ARRAY[".data <+: p.data) ↔ should ≠ [])) := by
  refine ⟨fun kf mo => rfl, ?_, ?_, ?_⟩
  · intro must must_not should kf mo
    cases must <;> cases must_not <;> cases should <;> simp [Boolean_mk]
  · intro cfg version must must_not should kf
    rfl
  · intro cfg version must must_not should
    have h := booleanParamSqls_prefix_iff (PExpr.overriddenChildSqls cfg version must)
      (PExpr.overriddenChildSqls cfg version must_not)
      (PExpr.overriddenChildSqls cfg version should)
    refine ⟨h.1.trans ?_, h.2.1.trans ?_, h.2.2.trans ?_⟩ <;>
      rw [List.isEmpty_iff, overriddenChildSqls_eq_nil_iff]

/-- Witness for C4 at concrete inputs: a `Boolean` with one `must` child
and empty `must_not`/`should` emits only the `must := ARRAY[...]`
keyword. -/
theorem C4_boolean_groups_witness :
    (Boolean_mk [] [] [] "id" false = none)
    ∧ (Boolean_mk [.term { pfield := "rank", value := .int 100 }] [] [] "id" false ≠ none)
    ∧ (∃ p ∈ Boolean_arg_list defaultSettings "0.17"
        [.term { pfield := "rank", value := .int 100 }] [] [],
        "must := ARRAY[".data <+: p.data)
    ∧ ¬ (∃ p ∈ Boolean_arg_list defaultSettings "0.17"
        [.term { pfield := "rank", value := .int 100 }] [] [],
        "should := ARRAY[".data <+: p.data) :=
  ⟨C4_boolean_groups.1 "id" false,
   fun h => by
     have := (C4_boolean_groups.2.1
       [.term { pfield := "rank", value := .int 100 }] [] [] "id" false).mp h
     simp at this,
   ((C4_boolean_groups.2.2.2 defaultSettings "0.17"
       [.term { pfield := "rank", value := .int 100 }] [] []).1).mpr (by simp),
   fun h =>
     ((C4_boolean_groups.2.2.2 defaultSettings "0.17"
       [.term { pfield := "rank", value := .int 100 }] [] []).2.2).mp h rfl⟩

/-- Python truthiness of an optional int: `None` and `0` are falsy. -/
def optIntTruthy : Option Int → Bool
  | none => false
  | some n => !(n == 0)

/-- An operand of `ProximityArray` (`str | int | ProximityRegex`). -/
inductive ProxAtom where
  | str (s : String)
  | int (n : Int)
  | regex (regex : String) (max_expansions : Option Int) (wrap : Bool)
deriving Repr, DecidableEq

/-- An operand of `Proximity` (`str | int | ProximityRegex |
ProximityArray`; the two operator tokens `"##"`/`"##>"` are ordinary
strings, as in the source). -/
inductive ProxItem where
  | str (s : String)
  | int (n : Int)
  | regex (regex : String) (max_expansions : Option Int) (wrap : Bool)
  | array (values : List ProxAtom) (wrap : Bool)
deriving Repr, DecidableEq

/-- `ProximityRegex.as_sql` from `src/paradedb/expressions.py`: a truthy
`max_expansions` adds a second placeholder; the result is parenthesized
when `wrap` is set. -/
def ProximityRegex_as_sql (regex : String) (max_expansions : Option Int)
    (wrap : Bool) : String × List Val :=
  let params := [Val.str regex] ++
    (if optIntTruthy max_expansions then [Val.int (max_expansions.getD 0)] else [])
  let sql := "pdb.prox_regex(%s" ++
    (if optIntTruthy max_expansions then ", %s" else "") ++ ")"
  ((if wrap then "(" ++ sql ++ ")" else sql), params)

/-- `ProximityArray.as_sql` from `src/paradedb/expressions.py`: regex
operands are compiled and composed inline, plain operands become
placeholders with bound parameters. -/
def ProximityArray_as_sql (values : List ProxAtom) (wrap : Bool) :
    String × List Val :=
  let step := fun (acc : List String × List Val) (v : ProxAtom) =>
    match v with
    | .regex r me w => (acc.1 ++ [composeSql1 (ProximityRegex_as_sql r me w)], acc.2)
    | .str s => (acc.1 ++ ["%s"], acc.2 ++ [Val.str s])
    | .int n => (acc.1 ++ ["%s"], acc.2 ++ [Val.int n])
  let built := values.foldl step ([], [])
  let sql := "pdb.prox_array(" ++ String.intercalate ", " built.1 ++ ")"
  ((if wrap then "(" ++ sql ++ ")" else sql), built.2)

/-- The alternation state of `Proximity.as_sql`'s loop (the `check`
variable of the source, starting at `"value"`; operator positions
`continue` without flipping it). -/
inductive ProxCheck where
  | value
  | distance
deriving Repr, DecidableEq

/-- `Proximity.ops`: the two proximity operator tokens. -/
def proximity_ops : List String := ["##", "##>"]

/-- Python's `str.isdigit` restricted to ASCII: non-empty and all digits. -/
def pyIsDigit (s : String) : Bool :=
  !(s == "") && s.data.all Char.isDigit

/-- Integer value of a digit string (`int(v)` on a digit string). -/
def digitsToInt (s : String) : Int :=
  Int.ofNat (s.data.foldl (fun acc c => acc * 10 + (c.toNat - '0'.toNat)) 0)

/-- `v in Proximity.ops` (false for every non-string operand). -/
def isProxOp : ProxItem → Bool
  | .str s => proximity_ops.contains s
  | _ => false

/-- Whether an operand is accepted at a distance position
(`isinstance(v, int) or (isinstance(v, str) and v.isdigit())`). -/
def isProxDistance : ProxItem → Bool
  | .int _ => true
  | .str s => pyIsDigit s
  | _ => false

/-- The loop of `Proximity.as_sql`: `idx` is the running 0-based index;
odd positions must hold an operator token (the `check` state is not
flipped there); even positions alternate between value and distance.
Value positions accept anything (regex/array operands are compiled with
`wrap` forced off and composed inline); distance positions accept only
ints and digit strings.  A violation raises `ValueError` (the message
text is abbreviated here).  Returns the SQL fragments and parameters. -/
def Proximity_loop : Nat → ProxCheck → List ProxItem →
    Except String (List String × List Val)
  | _, _, [] => .ok ([], [])
  | idx, check, v :: rest =>
    if idx % 2 == 1 then
      match v with
      | .str s =>
          if proximity_ops.contains s then
            match Proximity_loop (idx + 1) check rest with
            | .ok (sb, ps) => .ok (s :: sb, ps)
            | .error e => .error e
          else .error ("Expected op at position " ++ toString (idx + 1))
      | _ => .error ("Expected op at position " ++ toString (idx + 1))
    else
      match check with
      | .value =>
          let entry : String × List Val :=
            match v with
            | .regex r me _ => (composeSql1 (ProximityRegex_as_sql r me false), [])
            | .array vs _ => (composeSql1 (ProximityArray_as_sql vs false), [])
            | .str s => ("%s", [Val.str s])
            | .int n => ("%s", [Val.int n])
          match Proximity_loop (idx + 1) .distance rest with
          | .ok (sb, ps) => .ok (entry.1 :: sb, entry.2 ++ ps)
          | .error e => .error e
      | .distance =>
          match v with
          | .int n =>
              match Proximity_loop (idx + 1) .value rest with
              | .ok (sb, ps) => .ok ("%s" :: sb, Val.int n :: ps)
              | .error e => .error e
          | .str s =>
              if pyIsDigit s then
                match Proximity_loop (idx + 1) .value rest with
                | .ok (sb, ps) => .ok ("%s" :: sb, Val.int (digitsToInt s) :: ps)
                | .error e => .error e
              else .error ("Expected int at position " ++ toString (idx + 1))
          | _ => .error ("Expected int at position " ++ toString (idx + 1))

/-- `Proximity.__init__` from `src/paradedb/expressions.py`: the only
construction-time validation is `len(values) < 3`. -/
def Proximity_mk (values : List ProxItem) (pfield : Option String) :
    Option (List ProxItem × Option String) :=
  if values.length < 3 then none else some (values, pfield)

/-- `Proximity.as_sql`: run the loop from index 0 in the value state, join
the fragments with spaces inside parentheses, and prefix `field @@@ ` when
a (truthy) field was given. -/
def Proximity_as_sql (values : List ProxItem) (pfield : Option String) :
    Except String (String × List Val) :=
  match Proximity_loop 0 .value values with
  | .error e => .error e
  | .ok built =>
      let sql := "(" ++ String.intercalate " " built.1 ++ ")"
      .ok ((if optStrTruthy pfield then (pfield.getD "") ++ " @@@ " ++ sql else sql),
           built.2)

example :
    Proximity_as_sql [.str "django", .str "##", .str "1", .str "##>", .str "m"]
      (some "title") =
    .ok ("title @@@ (%s ## %s ##> %s)", [.str "django", .int 1, .str "m"]) := rfl

/-- Helper: if the proximity loop succeeds from a state whose `check`
agrees with the index (`check = value` exactly when `idx % 4` is `0` or
`3`, as in the initial state `(0, value)`), then every odd offset holds an
operator token and every offset congruent to `2 mod 4` holds a distance
operand. -/
theorem Proximity_loop_ok_valid (vs : List ProxItem) :
    ∀ (idx : Nat) (check : ProxCheck)
      (hI : check = ProxCheck.value ↔ (idx % 4 = 0 ∨ idx % 4 = 3))
      (r : List String × List Val),
      Proximity_loop idx check vs = .ok r →
      ∀ j (h : j < vs.length),
        ((idx + j) % 2 = 1 → isProxOp (vs.get ⟨j, h⟩) = true)
        ∧ ((idx + j) % 4 = 2 → isProxDistance (vs.get ⟨j, h⟩) = true) := by
  induction vs with
  | nil =>
      intro idx check hI r hok j h
      exact absurd h (by simp)
  | cons v rest ih =>
      intro idx check hI r hok j h
      by_cases hodd : (idx % 2 == 1) = true
      · -- operator position at the head
        have hodd' : idx % 2 = 1 := by simpa using hodd
        have hI' : check = ProxCheck.value ↔ ((idx + 1) % 4 = 0 ∨ (idx + 1) % 4 = 3) := by
          rcases check with _ | _
          · have h0 := hI.mp rfl
            exact iff_of_true rfl (by omega)
          · have h0 : ¬(idx % 4 = 0 ∨ idx % 4 = 3) := fun hx =>
              ProxCheck.noConfusion (hI.mpr hx)
            exact iff_of_false (by simp) (by omega)
        rcases v with s | n | ⟨rr, me, w⟩ | ⟨aa, w⟩
        · -- string head: must be an operator token
          simp only [Proximity_loop, hodd, if_true] at hok
          split at hok
          · next hcontains =>
            split at hok
            · next sb ps hrec =>
                rcases j with _ | j'
                · refine ⟨fun _ => ?_, fun habs => absurd habs (by omega)⟩
                  simpa [isProxOp] using hcontains
                · have h' : j' < rest.length := by simpa using h
                  have harith2 : (idx + (j' + 1)) % 2 = ((idx + 1) + j') % 2 := by omega
                  have harith4 : (idx + (j' + 1)) % 4 = ((idx + 1) + j') % 4 := by omega
                  have hstep := ih (idx + 1) check hI' (sb, ps) hrec j' h'
                  simpa [harith2, harith4] using hstep
            · exact Except.noConfusion hok
          · exact Except.noConfusion hok
        · simp [Proximity_loop, hodd] at hok
        · simp [Proximity_loop, hodd] at hok
        · simp [Proximity_loop, hodd] at hok
      · -- value or distance position at the head
        have hodd2 : (idx % 2 == 1) = false := by simpa using hodd
        have heven : idx % 2 = 0 := by
          have hne : ¬ idx % 2 = 1 := by simpa using hodd
          omega
        rcases check with _ | _
        · -- value position: idx % 4 = 0, nothing to check at the head
          have h0 : idx % 4 = 0 := by
            have hv := hI.mp rfl
            omega
          have hI' : ProxCheck.distance = ProxCheck.value ↔
              ((idx + 1) % 4 = 0 ∨ (idx + 1) % 4 = 3) :=
            iff_of_false (by simp) (by omega)
          rcases v with s | n | ⟨rr, me, w⟩ | ⟨aa, w⟩ <;>
            (simp only [Proximity_loop, hodd2, Bool.false_eq_true, if_false] at hok
             split at hok
             case _ sb ps hrec =>
               rcases j with _ | j'
               · exact ⟨fun habs => absurd habs (by omega),
                        fun habs => absurd habs (by omega)⟩
               · have h' : j' < rest.length := by simpa using h
                 have harith2 : (idx + (j' + 1)) % 2 = ((idx + 1) + j') % 2 := by omega
                 have harith4 : (idx + (j' + 1)) % 4 = ((idx + 1) + j') % 4 := by omega
                 have hstep := ih (idx + 1) .distance hI' (sb, ps) hrec j' h'
                 simpa [harith2, harith4] using hstep
             case _ e => exact Except.noConfusion hok)
        · -- distance position: idx % 4 = 2, head must be an int or digit string
          have h2 : idx % 4 = 2 := by
            have h0 : ¬(idx % 4 = 0 ∨ idx % 4 = 3) := fun hx =>
              ProxCheck.noConfusion (hI.mpr hx)
            omega
          have hI' : ProxCheck.value = ProxCheck.value ↔
              ((idx + 1) % 4 = 0 ∨ (idx + 1) % 4 = 3) :=
            iff_of_true rfl (by omega)
          rcases v with s | n | ⟨rr, me, w⟩ | ⟨aa, w⟩
          · -- string head: must be a digit string
            simp only [Proximity_loop, hodd2, Bool.false_eq_true, if_false] at hok
            split at hok
            · next hdig =>
              split at hok
              · next sb ps hrec =>
                  rcases j with _ | j'
                  · refine ⟨fun habs => absurd habs (by omega), fun _ => ?_⟩
                    simp [isProxDistance, hdig]
                  · have h' : j' < rest.length := by simpa using h
                    have harith2 : (idx + (j' + 1)) % 2 = ((idx + 1) + j') % 2 := by omega
                    have harith4 : (idx + (j' + 1)) % 4 = ((idx + 1) + j') % 4 := by omega
                    have hstep := ih (idx + 1) .value hI' (sb, ps) hrec j' h'
                    simpa [harith2, harith4] using hstep
              · exact Except.noConfusion hok
            · exact Except.noConfusion hok
          · -- int head
            simp only [Proximity_loop, hodd2, Bool.false_eq_true, if_false] at hok
            split at hok
            · next sb ps hrec =>
                rcases j with _ | j'
                · exact ⟨fun habs => absurd habs (by omega),
                         fun _ => by simp [isProxDistance]⟩
                · have h' : j' < rest.length := by simpa using h
                  have harith2 : (idx + (j' + 1)) % 2 = ((idx + 1) + j') % 2 := by omega
                  have harith4 : (idx + (j' + 1)) % 4 = ((idx + 1) + j') % 4 := by omega
                  have hstep := ih (idx + 1) .value hI' (sb, ps) hrec j' h'
                  simpa [harith2, harith4] using hstep
            · exact Except.noConfusion hok
          · simp [Proximity_loop, hodd2] at hok
          · simp [Proximity_loop, hodd2] at hok

/-- C5 counterexample: the even-length operand list
`["a", "##", "1", "##"]` (length 4, ending in an operator) is accepted at
construction and compiles successfully — the odd-length requirement of the
claim is not enforced anywhere. -/
theorem C5_proximity_counterexample :
    Proximity_mk [.str "a", .str "##", .str "1", .str "##"] none ≠ none
    ∧ Proximity_as_sql [.str "a", .str "##", .str "1", .str "##"] none =
        .ok ("(%s ## %s ##)", [.str "a", .int 1]) := by
  exact ⟨by decide, rfl⟩

/-- C5 (amended): construction fails exactly when the operand list has
fewer than 3 elements (odd length is NOT required: an even-length list
compiles, emitting a trailing operator); whenever compilation succeeds,
every 0-indexed odd position holds one of the two proximity operator
tokens and every distance position (index congruent to 2 mod 4) holds an
integer or digit string; a list violating either position rule fails at
compile time with a `ValueError`. -/
theorem C5_proximity_amended :
    (∀ vs pf, Proximity_mk vs pf = none ↔ vs.length < 3)
    ∧ (∀ vs pf r, Proximity_as_sql vs pf = .ok r →
        ∀ j (h : j < vs.length),
          (j % 2 = 1 → isProxOp (vs.get ⟨j, h⟩) = true)
          ∧ (j % 4 = 2 → isProxDistance (vs.get ⟨j, h⟩) = true))
    ∧ (∀ vs pf, (∃ j, ∃ h : j < vs.length,
          (j % 2 = 1 ∧ ¬ isProxOp (vs.get ⟨j, h⟩) = true)
          ∨ (j % 4 = 2 ∧ ¬ isProxDistance (vs.get ⟨j, h⟩) = true)) →
        ∃ e, Proximity_as_sql vs pf = .error e) := by
  have hmain : ∀ (vs : List ProxItem) (pf : Option String) (r : String × List Val),
      Proximity_as_sql vs pf = .ok r →
      ∀ j (h : j < vs.length),
        (j % 2 = 1 → isProxOp (vs.get ⟨j, h⟩) = true)
        ∧ (j % 4 = 2 → isProxDistance (vs.get ⟨j, h⟩) = true) := by
    intro vs pf r hok j h
    rcases hloop : Proximity_loop 0 .value vs with e | built
    · rw [Proximity_as_sql, hloop] at hok
      exact Except.noConfusion hok
    · have hI : ProxCheck.value = ProxCheck.value ↔ (0 % 4 = 0 ∨ 0 % 4 = 3) :=
        iff_of_true rfl (Or.inl rfl)
      have := Proximity_loop_ok_valid vs 0 .value hI built hloop j h
      simpa using this
  refine ⟨fun vs pf => ?_, hmain, fun vs pf hbad => ?_⟩
  · constructor
    · intro hnone
      by_cases hlen : vs.length < 3
      · exact hlen
      · rw [Proximity_mk, if_neg hlen] at hnone
        exact Option.noConfusion hnone
    · intro hlen
      rw [Proximity_mk, if_pos hlen]
  · rcases hres : Proximity_as_sql vs pf with e | r
    · exact ⟨e, rfl⟩
    · exfalso
      rcases hbad with ⟨j, h, hviol⟩
      have hvalid := hmain vs pf r hres j h
      rcases hviol with ⟨hj, hop⟩ | ⟨hj, hdist⟩
      · exact hop (hvalid.1 hj)
      · exact hdist (hvalid.2 hj)

/-- Witness for C5 (amended) at concrete inputs: the valid odd-length list
`["a", "##", 1, "##>", "b"]` compiles and its position 1 holds an operator;
the list `["a", "x", 1]` with a non-operator at position 1 compiles to an
error. -/
theorem C5_proximity_amended_witness :
    (isProxOp ([ProxItem.str "a", .str "##", .int 1, .str "##>", .str "b"].get
      ⟨1, by decide⟩) = true)
    ∧ (∃ e, Proximity_as_sql [ProxItem.str "a", .str "x", .int 1] none = .error e) :=
  ⟨(C5_proximity_amended.2.1 [ProxItem.str "a", .str "##", .int 1, .str "##>", .str "b"]
      none ("(%s ## %s ##> %s)", [.str "a", .int 1, .str "b"]) rfl 1 (by decide)).1 rfl,
   C5_proximity_amended.2.2 [ProxItem.str "a", .str "x", .int 1] none
     ⟨1, by decide, Or.inl ⟨rfl, by decide⟩⟩⟩

/-- A start/end operand of a `Range` expression
(`int | str | datetime.datetime | datetime.date`, or absent). -/
inductive RangeVal where
  | int (n : Int)
  | str (s : String)
  | date (y m d : Nat)
  | datetime (y m d hh mi ss : Nat)
deriving Repr, DecidableEq

/-- Zero-pad a number to two digits (`strftime`'s `%m`/`%d`/`%H`/`%M`/`%S`). -/
def pad2 (n : Nat) : String :=
  if n < 10 then "0" ++ toString n else toString n

/-- Zero-pad a year to four digits (`strftime`'s `%Y`). -/
def pad4 (n : Nat) : String :=
  if n < 10 then "000" ++ toString n
  else if n < 100 then "00" ++ toString n
  else if n < 1000 then "0" ++ toString n
  else toString n

/-- `Range._format` from `src/paradedb/expressions.py`: `None` becomes
`NULL`, datetimes and dates are quoted `strftime` renderings, strings are
quoted verbatim, anything else is its direct string conversion. -/
def Range_format : Option RangeVal → String
  | none => "NULL"
  | some (.datetime y m d hh mi ss) =>
      "'" ++ pad4 y ++ "-" ++ pad2 m ++ "-" ++ pad2 d ++ " " ++
        pad2 hh ++ ":" ++ pad2 mi ++ ":" ++ pad2 ss ++ "'"
  | some (.date y m d) => "'" ++ pad4 y ++ "-" ++ pad2 m ++ "-" ++ pad2 d ++ "'"
  | some (.str s) => "'" ++ s ++ "'"
  | some (.int n) => toString n

/-- `Range.RangeType.all`: the five supported range type tags. -/
def RangeType_all : List String :=
  ["int4range", "int8range", "daterange", "tsrange", "tstzrange"]

/-- `Range.RangeBound.all`: the four supported bounds tags. -/
def RangeBound_all : List String := ["[)", "(]", "[]", "()"]

/-- The state of a `Range` expression node. -/
structure RangeNode where
  pfield : String
  range_type : String
  start : Option RangeVal
  endv : Option RangeVal
  bounds : String
  key_field : String := "id"
  match_op : Bool := false
  ignore_lhs : Bool := false
  legacy : Bool := false
deriving Repr, DecidableEq

/-- `Range.__init__`: `_validate_range_type` and `_validate_bound` raise
`ValueError` for a tag outside the supported lists (the range type is
checked first, as in the source). -/
def Range_mk (field : String) (range_type : String) (start : Option RangeVal)
    (endv : Option RangeVal) (bounds : String) (key_field : String)
    (match_op : Bool) : Option RangeNode :=
  if !RangeType_all.contains range_type then none
  else if !RangeBound_all.contains bounds then none
  else some { pfield := field, range_type := range_type, start := start,
              endv := endv, bounds := bounds, key_field := key_field,
              match_op := match_op }

/-- `Range.make_range`: `<range_type>(<start>, <end>, '<bounds>')`. -/
def Range_make_range (range_type : String) (start endv : Option RangeVal)
    (bounds : String) : String :=
  range_type ++ "(" ++ Range_format start ++ ", " ++ Range_format endv ++
    ", '" ++ bounds ++ "')"

/-- `Range.as_sql` from `src/paradedb/expressions.py`: the single
`range:= <literal>` argument embeds `make_range`'s text; the legacy schema
additionally binds the field as the first argument. -/
def Range_as_sql (cfg : PdbSettings) (version : String) (r : RangeNode) :
    String × List Val :=
  let args0 : List String :=
    ["range:= " ++ Range_make_range r.range_type r.start r.endv r.bounds]
  let schema := _get_schema cfg version r.legacy (some "range")
  let include_field := schema == "paradedb"
  let params : List Val := if include_field then [Val.str r.pfield] else []
  let args := if include_field then "%s" :: args0 else args0
  (_make_schema_sql "range" args schema
    (if !r.ignore_lhs && !include_field then some r.pfield else none)
    "@@@"
    (if r.match_op then some r.key_field else none),
   params)

example :
    Range_as_sql defaultSettings "0.20"
      { pfield := "rank", range_type := "int4range", start := some (.int 1),
        endv := some (.int 3), bounds := "()", match_op := true } =
    ("rank @@@ pdb.range(range:= int4range(1, 3, '()'))", []) := by decide

example :
    Range_as_sql defaultSettings "0.17"
      { pfield := "rank", range_type := "int4range", start := some (.int 1),
        endv := none, bounds := "[)", match_op := true, legacy := true } =
    ("id @@@ paradedb.range(%s,range:= int4range(1, NULL, '[)'))",
     [.str "rank"]) := by decide

/-- Helper: whatever prefixes `_make_schema_sql` chooses, a suffix `X` of
the joined argument text ends up embedded contiguously in the output. -/
theorem make_schema_sql_embed (func schema op : String) (lhs kf : Option String)
    (args : List String) (pre0 X : String)
    (hargs : String.intercalate "," args = pre0 ++ X) :
    ∃ pre post, _make_schema_sql func args schema lhs op kf = pre ++ X ++ post := by
  unfold _make_schema_sql
  by_cases hlhs : optStrTruthy lhs = true
  · rw [if_pos hlhs, hargs]
    refine ⟨lhs.getD "" ++ " " ++ op ++ " " ++ schema ++ "." ++ func ++ "(" ++ pre0,
      ")", ?_⟩
    apply String.ext
    simp only [String.data_append, List.append_assoc]
  · rw [if_neg hlhs]
    by_cases hkf : optStrTruthy kf = true
    · rw [if_pos hkf, hargs]
      refine ⟨kf.getD "" ++ " " ++ op ++ " " ++ (schema ++ "." ++ func ++ "(" ++ pre0),
        ")", ?_⟩
      apply String.ext
      simp only [String.data_append, List.append_assoc]
    · rw [if_neg hkf, hargs]
      refine ⟨schema ++ "." ++ func ++ "(" ++ pre0, ")", ?_⟩
      apply String.ext
      simp only [String.data_append, List.append_assoc]

/-- C7: a `Range` with a range-type tag outside the five supported range
types or a bounds tag outside the four supported combinations fails at
construction; every compiled `Range` embeds exactly the text
`<range_type>(<start>, <end>, '<bounds>')` (absent start/end rendered as
`NULL`) contiguously in its SQL. -/
theorem C7_range_validation_and_embedding :
    (∀ field rt s e b kf mo,
      Range_mk field rt s e b kf mo = none ↔
        (rt ∉ RangeType_all ∨ b ∉ RangeBound_all))
    ∧ (∀ (cfg : PdbSettings) (version : String) (r : RangeNode),
        ∃ pre post, (Range_as_sql cfg version r).1 =
          pre ++ Range_make_range r.range_type r.start r.endv r.bounds ++ post) := by
  constructor
  · intro field rt s e b kf mo
    by_cases hrt : RangeType_all.contains rt = true
    · have hrt' : rt ∈ RangeType_all := by simpa using hrt
      by_cases hb : RangeBound_all.contains b = true
      · have hb' : b ∈ RangeBound_all := by simpa using hb
        simp [Range_mk, hrt, hb, hrt', hb']
      · have hb' : b ∉ RangeBound_all := by simpa using hb
        simp [Range_mk, hrt, hb, hb']
    · have hrt' : rt ∉ RangeType_all := by simpa using hrt
      simp [Range_mk, hrt, hrt']
  · intro cfg version r
    by_cases hinc : (_get_schema cfg version r.legacy (some "range") == "paradedb") = true
    · simp only [Range_as_sql, hinc, if_true]
      exact make_schema_sql_embed "range" _ "@@@" _ _ _
        ("%s" ++ "," ++ "range:= ")
        (Range_make_range r.range_type r.start r.endv r.bounds)
        (by apply String.ext
            simp only [String.data_append, List.append_assoc]
            rfl)
    · have hincf : (_get_schema cfg version r.legacy (some "range") == "paradedb") = false := by
        simpa using hinc
      simp only [Range_as_sql, hincf, Bool.false_eq_true, if_false]
      exact make_schema_sql_embed "range" _ "@@@" _ _ _
        "range:= "
        (Range_make_range r.range_type r.start r.endv r.bounds)
        (by apply String.ext
            simp only [String.data_append, List.append_assoc]
            rfl)

/-- Witness for C7 at concrete inputs: an unsupported range type fails
construction, a supported pair constructs, and the compiled SQL of a
concrete node embeds the range literal. -/
theorem C7_range_validation_and_embedding_witness :
    (Range_mk "rank" "numrange" (some (.int 1)) (some (.int 3)) "[)" "id" false = none)
    ∧ (Range_mk "rank" "int4range" (some (.int 1)) (some (.int 3)) "()" "id" true ≠ none)
    ∧ (∃ pre post,
        (Range_as_sql defaultSettings "0.17"
          { pfield := "rank", range_type := "int4range", start := some (.int 1),
            endv := none, bounds := "[)", match_op := true, legacy := true }).1 =
          pre ++ Range_make_range "int4range" (some (.int 1)) none "[)" ++ post) :=
  ⟨(C7_range_validation_and_embedding.1 "rank" "numrange" (some (.int 1))
      (some (.int 3)) "[)" "id" false).mpr (Or.inl (by decide)),
   fun h =>
     by rcases (C7_range_validation_and_embedding.1 "rank" "int4range"
          (some (.int 1)) (some (.int 3)) "()" "id" true).mp h with h' | h' <;>
        exact h' (by decide),
   C7_range_validation_and_embedding.2 defaultSettings "0.17"
     { pfield := "rank", range_type := "int4range", start := some (.int 1),
       endv := none, bounds := "[)", match_op := true, legacy := true }⟩

/-- The claim-side per-character encoding: a backslash becomes two
backslashes, a single quote becomes two single quotes, anything else is
unchanged. -/
def pgEscapeChar (c : Char) : List Char :=
  if c = '\\' then ['\\', '\\'] else if c = '\'' then ['\'', '\''] else [c]

/-- Helper: the source's two sequential replace passes (backslash doubling
then quote doubling) equal a single per-character expansion. -/
theorem double_replace_eq_flatMap (s : String) :
    strReplaceChar (strReplaceChar s '\\' ['\\', '\\']) '\'' ['\'', '\''] =
      String.mk (s.data.flatMap pgEscapeChar) := by
  unfold strReplaceChar
  refine congrArg String.mk ?_
  show (s.data.flatMap fun x => if x = '\\' then ['\\', '\\'] else [x]).flatMap
      (fun x => if x = '\'' then ['\'', '\''] else [x]) = s.data.flatMap pgEscapeChar
  induction s.data with
  | nil => rfl
  | cons c rest ihl =>
      simp only [List.flatMap_cons, List.flatMap_append, ihl]
      by_cases hbs : c = '\\'
      · subst hbs
        rfl
      · by_cases hq : c = '\''
        · subst hq
          rfl
        · simp [pgEscapeChar, hbs, hq]

/-- C8: the value encoder turns a list into an `ARRAY[...]` literal whose
elements are individually encoded in the original order: a string element
has every backslash doubled and every single quote doubled and is wrapped
in single quotes, `None` becomes `NULL`, and an integer is its direct
string conversion. -/
theorem C8_postgres_array_encoding :
    (∀ l : List Val, postgres_array l =
      "ARRAY[" ++ String.intercalate ", " (l.map pgFormatValue) ++ "]")
    ∧ (∀ s : String, pgFormatValue (.str s) =
        "'" ++ String.mk (s.data.flatMap pgEscapeChar) ++ "'")
    ∧ pgFormatValue .null = "NULL"
    ∧ (∀ n : Int, pgFormatValue (.int n) = toString n) :=
  ⟨fun _ => rfl,
   fun s => by rw [pgFormatValue, double_replace_eq_flatMap],
   rfl,
   fun _ => rfl⟩

/-- The state of a `Phrase` expression node (the `pharses` spelling is the
source's). -/
structure PhraseNode where
  pfield : String
  pharses : List String
  slop : Int := 0
  key_field : String := "id"
  match_op : Bool := false
  ignore_lhs : Bool := false
  legacy : Bool := false
deriving Repr, DecidableEq

/-- `Phrase.__init__`: asserts `len(pharses) > 1` ("Phrase must have more
than one phrase"); `slop` is coerced with `int(...)` (already an `Int`
here). -/
def Phrase_mk (field : String) (pharses : List String) (slop : Int)
    (key_field : String) (match_op : Bool) : Option PhraseNode :=
  if pharses.length > 1 then
    some { pfield := field, pharses := pharses, slop := slop,
           key_field := key_field, match_op := match_op }
  else none

/-- The state of a `PhrasePrefix` expression node. -/
structure PhrasePrefixNode where
  pfield : String
  pharses : List String
  max_expansion : Int := 0
  key_field : String := "id"
  match_op : Bool := false
  ignore_lhs : Bool := false
  legacy : Bool := false
deriving Repr, DecidableEq

/-- `PhrasePrefix.__init__`: the same `len(pharses) > 1` assertion. -/
def PhrasePrefix_mk (field : String) (pharses : List String)
    (max_expansion : Int) (key_field : String) (match_op : Bool) :
    Option PhrasePrefixNode :=
  if pharses.length > 1 then
    some { pfield := field, pharses := pharses, max_expansion := max_expansion,
           key_field := key_field, match_op := match_op }
  else none

/-- `Phrase.as_sql` from `src/paradedb/expressions.py`. -/
def Phrase_as_sql (cfg : PdbSettings) (version : String) (p : PhraseNode) :
    String × List Val :=
  let schema := _get_schema cfg version p.legacy (some "phrase")
  let include_field := schema == "paradedb"
  let args0 : List String := [postgres_array (p.pharses.map Val.str), "%s"]
  let params0 : List Val := [Val.int p.slop]
  let args := if include_field then "%s" :: args0 else args0
  let params := if include_field then Val.str p.pfield :: params0 else params0
  (_make_schema_sql "phrase" args schema
    (if !p.ignore_lhs && !include_field then some p.pfield else none)
    "@@@"
    (if p.match_op then some p.key_field else none),
   params)

/-- `PhrasePrefix.as_sql` from `src/paradedb/expressions.py`: the
`max_expansion:=%s` argument is emitted only when `max_expansion != 0`. -/
def PhrasePrefix_as_sql (cfg : PdbSettings) (version : String)
    (p : PhrasePrefixNode) : String × List Val :=
  let schema := _get_schema cfg version p.legacy (some "phrase_prefix")
  let include_field := schema == "paradedb"
  let args0 : List String := [postgres_array (p.pharses.map Val.str)] ++
    (if !(p.max_expansion == 0) then ["max_expansion:=%s"] else [])
  let params0 : List Val :=
    if !(p.max_expansion == 0) then [Val.int p.max_expansion] else []
  let args := if include_field then "%s" :: args0 else args0
  let params := if include_field then Val.str p.pfield :: params0 else params0
  (_make_schema_sql "phrase_prefix" args schema
    (if !p.ignore_lhs && !include_field then some p.pfield else none)
    "@@@"
    (if p.match_op then some p.key_field else none),
   params)

example :
    Phrase_as_sql defaultSettings "0.17"
      { pfield := "title", pharses := ["quick", "brown", "fox"], slop := 3,
        match_op := true } =
    ("id @@@ paradedb.phrase(%s,ARRAY['quick', 'brown', 'fox'],%s)",
     [.str "title", .int 3]) := by decide

/-- C10: constructing a `Phrase` or `PhrasePrefix` node fails exactly when
the phrase list has fewer than two entries; a single-element or empty list
is never accepted. -/
theorem C10_phrase_min_length :
    (∀ field ps slop kf mo, Phrase_mk field ps slop kf mo = none ↔ ps.length ≤ 1)
    ∧ (∀ field ps mex kf mo,
        PhrasePrefix_mk field ps mex kf mo = none ↔ ps.length ≤ 1) := by
  constructor
  · intro field ps slop kf mo
    by_cases hlen : ps.length > 1
    · simp [Phrase_mk, hlen]
    · simp [Phrase_mk, hlen]
      omega
  · intro field ps mex kf mo
    by_cases hlen : ps.length > 1
    · simp [PhrasePrefix_mk, hlen]
    · simp [PhrasePrefix_mk, hlen]
      omega

/-- A JSON value, for modelling Python dict payloads and `json.dumps`. -/
inductive Json where
  | str (s : String)
  | num (n : Int)
  | bool (b : Bool)
  | null
  | arr (l : List Json)
  | obj (m : List (String × Json))

/-- JSON string escaping for `json.dumps` (backslash and double quote;
control-character and non-ASCII escaping omitted — the payloads modelled
here are plain). -/
def jsonEscape (s : String) : String :=
  String.mk (s.data.flatMap fun c =>
    if c = '\\' then ['\\', '\\'] else if c = '"' then ['\\', '"'] else [c])

mutual

/-- Python's `json.dumps` with its default separators (`", "` between
items and `": "` after keys), modelling an external collaborator. -/
def Json.dumps : Json → String
  | .str s => "\"" ++ jsonEscape s ++ "\""
  | .num n => toString n
  | .bool b => if b then "true" else "false"
  | .null => "null"
  | .arr l => "[" ++ String.intercalate ", " (Json.dumpsList l) ++ "]"
  | .obj m => "\x7b" ++ String.intercalate ", " (Json.dumpsObj m) ++ "\x7d"

/-- `json.dumps` of the elements of an array. -/
def Json.dumpsList : List Json → List String
  | [] => []
  | v :: rest => Json.dumps v :: Json.dumpsList rest

/-- `json.dumps` of the key/value entries of an object. -/
def Json.dumpsObj : List (String × Json) → List String
  | [] => []
  | (k, v) :: rest =>
      ("\"" ++ jsonEscape k ++ "\": " ++ Json.dumps v) :: Json.dumpsObj rest

end

example : Json.dumps (.obj [("id", .num 123)]) = "\x7b\"id\": 123\x7d" := rfl

/-- Python truthiness of an optional scalar: `None`, `0` and `""` are
falsy. -/
def valOptTruthy : Option Val → Bool
  | none => false
  | some (.int n) => !(n == 0)
  | some (.str s) => !(s == "")
  | some .null => false

/-- Python truthiness of an optional dict: `None` and `{}` are falsy. -/
def docTruthy : Option (List (String × Json)) → Bool
  | none => false
  | some d => !d.isEmpty

/-- The state of a `MoreLikeThis` expression node
(`MoreLikeThis.__init__` in `src/paradedb/expressions.py`).  `fields` and
`stop_words` default to `None` in the source; `None` and `[]` behave
identically under the truthiness checks of `as_sql`, so both are modelled
as lists. -/
structure MoreLikeThisNode where
  document_id : Option Val := none
  document : Option (List (String × Json)) := none
  fields : List String := []
  min_doc_frequency : Option Int := none
  max_doc_frequency : Option Int := none
  min_term_frequency : Option Int := none
  max_query_terms : Option Int := none
  min_word_length : Option Int := none
  max_word_length : Option Int := none
  boost_factor : Option Int := none
  stop_words : List String := []
  key_field : String := "id"
  match_op : Bool := false

/-- One optional named-argument step of `MoreLikeThis.as_sql` (the
source repeats `if <knob>: sql += ", <name> :=%s"; params.append(<knob>)`
for each tuning knob). -/
def mltOptArg (cond : Bool) (arg : String) (pval : Val)
    (sp : String × List Val) : String × List Val :=
  if cond then (sp.1 ++ arg, sp.2 ++ [pval]) else sp

/-- `MoreLikeThis.as_sql` from `src/paradedb/expressions.py`: a truthy
`document_id` emits `key_value :=%s` (plus `fields := ARRAY[...]` when a
non-empty field list is given); the JSON-encoded `document :=%s` is
emitted only when `document` is truthy and `document_id` is not; each
tuning knob is appended only when truthy; `match_op` prefixes the key
field. -/
def MoreLikeThis_as_sql (m : MoreLikeThisNode) : String × List Val :=
  let sp : String × List Val := ("pdb.more_like_this(", [])
  let sp :=
    if valOptTruthy m.document_id then
      let sql := sp.1 ++ "key_value :=%s"
      let params := sp.2 ++ [m.document_id.getD .null]
      let sql :=
        if !m.fields.isEmpty then
          sql ++ ", fields := " ++ postgres_array (m.fields.map Val.str)
        else sql
      (sql, params)
    else sp
  let sp :=
    if docTruthy m.document && !valOptTruthy m.document_id then
      (sp.1 ++ "document :=%s",
       sp.2 ++ [Val.str (Json.dumps (Json.obj (m.document.getD [])))])
    else sp
  let sp := mltOptArg (optIntTruthy m.min_doc_frequency)
    ", min_doc_frequency :=%s" (Val.int (m.min_doc_frequency.getD 0)) sp
  let sp := mltOptArg (optIntTruthy m.max_doc_frequency)
    ", max_doc_frequency :=%s" (Val.int (m.max_doc_frequency.getD 0)) sp
  let sp := mltOptArg (optIntTruthy m.min_term_frequency)
    ", min_term_frequency :=%s" (Val.int (m.min_term_frequency.getD 0)) sp
  let sp := mltOptArg (optIntTruthy m.max_query_terms)
    ", max_query_terms :=%s" (Val.int (m.max_query_terms.getD 0)) sp
  let sp := mltOptArg (optIntTruthy m.min_word_length)
    ", min_word_length :=%s" (Val.int (m.min_word_length.getD 0)) sp
  let sp := mltOptArg (optIntTruthy m.max_word_length)
    ", max_word_length :=%s" (Val.int (m.max_word_length.getD 0)) sp
  let sp := mltOptArg (optIntTruthy m.boost_factor)
    ", boost_factor :=%s" (Val.int (m.boost_factor.getD 0)) sp
  let sql :=
    if !m.stop_words.isEmpty then
      sp.1 ++ ", stopwords:= " ++ postgres_array (m.stop_words.map Val.str)
    else sp.1
  let sql := sql ++ ")"
  (if m.match_op then m.key_field ++ " @@@ " ++ sql else sql, sp.2)

/-- Naive substring search on character lists. -/
def containsSub (needle : List Char) : List Char → Bool
  | [] => needle.isEmpty
  | c :: rest => needle.isPrefixOf (c :: rest) || containsSub needle rest

/-- Whether `pat` occurs contiguously inside `hay`. -/
def strContains (hay pat : String) : Bool :=
  containsSub pat.data hay.data

example :
    MoreLikeThis_as_sql { document_id := some (.int 123), fields := ["title"] } =
    ("pdb.more_like_this(key_value :=%s, fields := ARRAY['title'])",
     [.int 123]) := by decide

/-- Helper: a prefix of `X` is a prefix of `X ++ t`. -/
theorem prefix_data_append {p : List Char} {X : String} (h : p <+: X.data)
    (t : String) : p <+: (X ++ t).data := by
  rcases h with ⟨u, hu⟩
  exact ⟨u ++ t.data, by rw [String.data_append, ← hu, List.append_assoc]⟩

/-- Helper: an optional-argument step preserves a prefix of the SQL. -/
theorem mltOptArg_lead {p : List Char} {sp : String × List Val}
    (h : p <+: sp.1.data) (cond : Bool) (arg : String) (pval : Val) :
    p <+: (mltOptArg cond arg pval sp).1.data := by
  unfold mltOptArg
  split
  · exact prefix_data_append h arg
  · exact h

/-- Helper: an optional-argument step preserves the head parameter. -/
theorem mltOptArg_head {x : Val} {sp : String × List Val}
    (h : ∃ rest, sp.2 = x :: rest) (cond : Bool) (arg : String) (pval : Val) :
    ∃ rest, (mltOptArg cond arg pval sp).2 = x :: rest := by
  rcases h with ⟨rest, hrest⟩
  unfold mltOptArg
  split
  · exact ⟨rest ++ [pval], by simp [hrest]⟩
  · exact ⟨rest, hrest⟩

/-- C9 counterexample: `document_id = 0` is a supplied document identifier,
yet Python's truthiness sends compilation into the by-literal-document
mode: the SQL contains `document :=` and no `key_value` argument, refuting
the claimed mutual exclusion for every supplied identifier. -/
theorem C9_mlt_counterexample :
    MoreLikeThis_as_sql
      { document_id := some (.int 0), document := some [("id", .num 123)] } =
      ("pdb.more_like_this(document :=%s)", [.str "\x7b\"id\": 123\x7d"])
    ∧ strContains "pdb.more_like_this(document :=%s)" "key_value" = false
    ∧ strContains "pdb.more_like_this(document :=%s)" "document :=" = true := by
  refine ⟨?_, ?_, ?_⟩ <;> decide

/-- C9 (amended): the two modes are mutually exclusive for a *truthy*
document identifier (Python truthiness: `0`, `""` and `None` do not
count): with a truthy identifier the literal document is ignored entirely,
the SQL starts with the `key_value :=%s` argument (followed by the
`fields := ARRAY[...]` argument when a non-empty field list is supplied)
and the identifier is the first bound parameter; the JSON-encoded
`document :=%s` argument is emitted only when no truthy identifier is
supplied; `MoreLikeThis(document_id=123, fields=["title"])` emits exactly
`key_value :=%s, fields := ARRAY['title']` with parameter `123` and no
`document :=` argument. -/
theorem C9_mlt_amended :
    (∀ (m : MoreLikeThisNode) (d : Option (List (String × Json))),
      valOptTruthy m.document_id = true →
      MoreLikeThis_as_sql { m with document := d } =
        MoreLikeThis_as_sql { m with document := none })
    ∧ (∀ m : MoreLikeThisNode, valOptTruthy m.document_id = true →
        m.match_op = false →
        "pdb.more_like_this(key_value :=%s".data <+: (MoreLikeThis_as_sql m).1.data
        ∧ ∃ rest, (MoreLikeThis_as_sql m).2 = m.document_id.getD .null :: rest)
    ∧ (∀ m : MoreLikeThisNode, valOptTruthy m.document_id = true →
        m.match_op = false → m.fields.isEmpty = false →
        ("pdb.more_like_this(key_value :=%s, fields := " ++
          postgres_array (m.fields.map Val.str)).data <+:
            (MoreLikeThis_as_sql m).1.data)
    ∧ (∀ m : MoreLikeThisNode, valOptTruthy m.document_id = false →
        docTruthy m.document = true → m.match_op = false →
        "pdb.more_like_this(document :=%s".data <+: (MoreLikeThis_as_sql m).1.data
        ∧ ∃ rest, (MoreLikeThis_as_sql m).2 =
            Val.str (Json.dumps (Json.obj (m.document.getD []))) :: rest)
    ∧ MoreLikeThis_as_sql { document_id := some (.int 123), fields := ["title"] } =
        ("pdb.more_like_this(key_value :=%s, fields := ARRAY['title'])",
         [.int 123]) := by
  refine ⟨?_, ?_, ?_, ?_, by decide⟩
  · intro m d h
    simp [MoreLikeThis_as_sql, h]
  · intro m h hmo
    constructor
    · simp only [MoreLikeThis_as_sql, h, hmo, if_true, Bool.not_true,
        Bool.and_false, Bool.false_eq_true, if_false]
      have hbase : "pdb.more_like_this(key_value :=%s".data <+:
          ("pdb.more_like_this(" ++ "key_value :=%s").data := by decide
      apply prefix_data_append
      split
      · apply prefix_data_append
        apply prefix_data_append
        repeat apply mltOptArg_lead
        split
        · apply prefix_data_append
          apply prefix_data_append
          exact hbase
        · exact hbase
      · repeat apply mltOptArg_lead
        split
        · apply prefix_data_append
          apply prefix_data_append
          exact hbase
        · exact hbase
    · simp only [MoreLikeThis_as_sql, h, hmo, if_true, Bool.not_true,
        Bool.and_false, Bool.false_eq_true, if_false]
      repeat apply mltOptArg_head
      exact ⟨[], rfl⟩
  · intro m h hmo hf
    simp only [MoreLikeThis_as_sql, h, hmo, hf, Bool.not_false, if_true,
      Bool.not_true, Bool.and_false, Bool.false_eq_true, if_false]
    apply prefix_data_append
    split
    · apply prefix_data_append
      apply prefix_data_append
      repeat apply mltOptArg_lead
      refine ⟨[], ?_⟩
      simp only [String.data_append, List.append_assoc, List.append_nil]
      rfl
    · repeat apply mltOptArg_lead
      refine ⟨[], ?_⟩
      simp only [String.data_append, List.append_assoc, List.append_nil]
      rfl
  · intro m h hdoc hmo
    constructor
    · simp only [MoreLikeThis_as_sql, h, hdoc, hmo, Bool.not_false, Bool.and_self,
        Bool.false_eq_true, if_false, if_true]
      have hbase : "pdb.more_like_this(document :=%s".data <+:
          ("pdb.more_like_this(" ++ "document :=%s").data := by decide
      apply prefix_data_append
      split
      · apply prefix_data_append
        apply prefix_data_append
        repeat apply mltOptArg_lead
        exact hbase
      · repeat apply mltOptArg_lead
        exact hbase
    · simp only [MoreLikeThis_as_sql, h, hdoc, hmo, Bool.not_false, Bool.and_self,
        Bool.false_eq_true, if_false, if_true]
      repeat apply mltOptArg_head
      exact ⟨[], rfl⟩

/-- Witness for C9 (amended) at concrete inputs: with the truthy identifier
`123`, a supplied literal document is ignored, and the document mode
engages for a node with no identifier. -/
theorem C9_mlt_amended_witness :
    MoreLikeThis_as_sql
        { document_id := some (.int 123), document := some [("id", .num 5)] } =
      MoreLikeThis_as_sql { document_id := some (.int 123), document := none }
    ∧ ("pdb.more_like_this(key_value :=%s".data <+:
        (MoreLikeThis_as_sql { document_id := some (.int 123) }).1.data
       ∧ ∃ rest, (MoreLikeThis_as_sql { document_id := some (.int 123) }).2 =
          (some (Val.int 123)).getD .null :: rest)
    ∧ "pdb.more_like_this(document :=%s".data <+:
        (MoreLikeThis_as_sql { document := some [("id", .num 5)] }).1.data :=
  ⟨C9_mlt_amended.1 { document_id := some (.int 123) } (some [("id", .num 5)])
     (by decide),
   C9_mlt_amended.2.1 { document_id := some (.int 123) } (by decide) rfl,
   (C9_mlt_amended.2.2.2.1 { document := some [("id", .num 5)] } rfl (by decide)
     rfl).1⟩

/-- `TextFieldIndexConfig` from `src/paradedb/indexes.py` (the tokenizer
descriptor is carried as its serialized JSON dict, `Tokenizer.json`). -/
structure TextFieldIndexConfig where
  field : String
  fast : Bool := true
  tokenizer : Option Json := none
  normalizer : Option String := some "raw"
  record : Option String := some "position"
  indexed : Bool := true
  fieldnorms : Bool := true
  column : Option String := none

/-- `TextFieldIndexConfig.json`: `fast`/`indexed`/`fieldnorms`/`record`
always present, then `tokenizer`, `normalizer` and `column` only when
truthy, in the source's insertion order. -/
def TextFieldIndexConfig.json (c : TextFieldIndexConfig) : Json :=
  Json.obj (
    [("fast", Json.bool c.fast), ("indexed", Json.bool c.indexed),
     ("fieldnorms", Json.bool c.fieldnorms),
     ("record", match c.record with | some r => Json.str r | none => Json.null)]
    ++ (match c.tokenizer with | some t => [("tokenizer", t)] | none => [])
    ++ (if optStrTruthy c.normalizer then
          [("normalizer", Json.str (c.normalizer.getD ""))] else [])
    ++ (if optStrTruthy c.column then
          [("column", Json.str (c.column.getD ""))] else []))

/-- `JSONFieldIndexConfig` from `src/paradedb/indexes.py`. -/
structure JSONFieldIndexConfig extends TextFieldIndexConfig where
  expand_dots : Bool := true

/-- `JSONFieldIndexConfig.json`: the text-field entries plus
`expand_dots`. -/
def JSONFieldIndexConfig.json (c : JSONFieldIndexConfig) : Json :=
  match TextFieldIndexConfig.json c.toTextFieldIndexConfig with
  | Json.obj l => Json.obj (l ++ [("expand_dots", Json.bool c.expand_dots)])
  | j => j

/-- `NumericFieldIndexConfig` from `src/paradedb/indexes.py`
(`BooleanFieldIndexConfig` and `DateTimeFieldIndexConfig` are
field-for-field identical, so all three share this shape). -/
structure SimpleFieldIndexConfig where
  field : String
  fast : Bool := true
  indexed : Bool := true
  column : Option String := none

/-- The `json` property shared by the numeric/boolean/datetime configs. -/
def SimpleFieldIndexConfig.json (c : SimpleFieldIndexConfig) : Json :=
  Json.obj ([("fast", Json.bool c.fast), ("indexed", Json.bool c.indexed)]
    ++ (if optStrTruthy c.column then
          [("column", Json.str (c.column.getD ""))] else []))

/-- `IndexFieldConfig` from `src/paradedb/indexes.py`. -/
structure IndexFieldConfig where
  text_fields : List TextFieldIndexConfig := []
  json_fields : List JSONFieldIndexConfig := []
  numeric_fields : List SimpleFieldIndexConfig := []
  boolean_fields : List SimpleFieldIndexConfig := []
  datetime_fields : List SimpleFieldIndexConfig := []

/-- `_to_json_string` for text configs:
`json.dumps({c.field: c.json for c in configs})` (duplicate field names,
which the dict comprehension would collapse, are not modelled). -/
def to_json_string_text (configs : List TextFieldIndexConfig) : String :=
  Json.dumps (Json.obj (configs.map fun c => (c.field, TextFieldIndexConfig.json c)))

/-- `_to_json_string` for JSON configs. -/
def to_json_string_json (configs : List JSONFieldIndexConfig) : String :=
  Json.dumps (Json.obj (configs.map fun c => (c.field, JSONFieldIndexConfig.json c)))

/-- `_to_json_string` for numeric/boolean/datetime configs. -/
def to_json_string_simple (configs : List SimpleFieldIndexConfig) : String :=
  Json.dumps (Json.obj (configs.map fun c => (c.field, SimpleFieldIndexConfig.json c)))

/-- The `with_parts` list built by `Bm25Index.create_sql`
(`src/paradedb/indexes.py`): `key_field=...` first (falling back to the
model default when the index's `key_field` is falsy), then the
`with_extra` pairs in insertion order, then one JSON entry per non-empty
field-configuration category. -/
def Bm25Index_with_parts (key_field : Option String) (model_default : String)
    (with_extra : List (String × String))
    (fields_config : Option IndexFieldConfig) : List String :=
  let with_parts :=
    ["key_field=" ++
      (if optStrTruthy key_field then key_field.getD "" else model_default)]
  let with_parts :=
    with_extra.foldl (fun acc kv => acc ++ [kv.1 ++ "=" ++ kv.2]) with_parts
  match fields_config with
  | none => with_parts
  | some fc =>
      let with_parts :=
        if !fc.text_fields.isEmpty then
          with_parts ++ ["text_fields='" ++ to_json_string_text fc.text_fields ++ "'"]
        else with_parts
      let with_parts :=
        if !fc.json_fields.isEmpty then
          with_parts ++ ["json_fields='" ++ to_json_string_json fc.json_fields ++ "'"]
        else with_parts
      let with_parts :=
        if !fc.numeric_fields.isEmpty then
          with_parts ++
            ["numeric_fields='" ++ to_json_string_simple fc.numeric_fields ++ "'"]
        else with_parts
      let with_parts :=
        if !fc.boolean_fields.isEmpty then
          with_parts ++
            ["boolean_fields='" ++ to_json_string_simple fc.boolean_fields ++ "'"]
        else with_parts
      let with_parts :=
        if !fc.datetime_fields.isEmpty then
          with_parts ++
            ["datetime_fields='" ++ to_json_string_simple fc.datetime_fields ++ "'"]
        else with_parts
      with_parts

/-- The `WITH (...)` clause text appended to the `CREATE INDEX` statement:
`" WITH ({})".format(", ".join(with_parts))`. -/
def Bm25Index_with_clause (key_field : Option String) (model_default : String)
    (with_extra : List (String × String))
    (fields_config : Option IndexFieldConfig) : String :=
  " WITH (" ++ String.intercalate ", "
    (Bm25Index_with_parts key_field model_default with_extra fields_config) ++ ")"

example :
    Bm25Index_with_parts (some "id") "id" [("layout", "v1")]
      (some { text_fields := [{ field := "title" }] }) =
    ["key_field=id", "layout=v1",
     "text_fields='\x7b\"title\": \x7b\"fast\": true, \"indexed\": true, \"fieldnorms\": true, \"record\": \"position\", \"normalizer\": \"raw\"\x7d\x7d'"] := by
  decide

/-- Helper: a left fold that appends one image per element equals the
accumulator followed by the mapped list. -/
theorem foldl_append_eq_map {α β : Type} (f : α → β) :
    ∀ (l : List α) (acc : List β),
      l.foldl (fun acc x => acc ++ [f x]) acc = acc ++ l.map f := by
  intro l
  induction l with
  | nil => intro acc; simp
  | cons x xs ih =>
      intro acc
      simp only [List.foldl_cons, List.map_cons, ih, List.append_assoc,
        List.singleton_append]

/-- C6 counterexample: with one extra pair and one non-empty text-field
category, the caller-supplied extras come directly after `key_field=...`
and *before* the JSON category entry — not after it as the claim states. -/
theorem C6_with_clause_counterexample :
    Bm25Index_with_parts (some "id") "id" [("layout", "v1")]
        (some { text_fields := [{ field := "title" }] }) =
      ["key_field=id", "layout=v1",
       "text_fields='\x7b\"title\": \x7b\"fast\": true, \"indexed\": true, \"fieldnorms\": true, \"record\": \"position\", \"normalizer\": \"raw\"\x7d\x7d'"]
    ∧ Bm25Index_with_parts (some "id") "id" [("layout", "v1")]
        (some { text_fields := [{ field := "title" }] }) ≠
      ["key_field=id",
       "text_fields='\x7b\"title\": \x7b\"fast\": true, \"indexed\": true, \"fieldnorms\": true, \"record\": \"position\", \"normalizer\": \"raw\"\x7d\x7d'",
       "layout=v1"] := by
  constructor
  · decide
  · decide

/-- C6 (amended): the `WITH (...)` clause joins, in order: the
`key_field=<key-or-model-default>` entry, then the caller-supplied extra
key/value pairs verbatim, then one JSON-encoded entry per non-empty
field-configuration category in text/json/numeric/boolean/datetime
order. -/
theorem C6_with_clause_amended (key_field : Option String)
    (model_default : String) (with_extra : List (String × String))
    (fields_config : Option IndexFieldConfig) :
    Bm25Index_with_clause key_field model_default with_extra fields_config =
      " WITH (" ++ String.intercalate ", "
        (["key_field=" ++
            (if optStrTruthy key_field then key_field.getD "" else model_default)]
         ++ with_extra.map (fun kv => kv.1 ++ "=" ++ kv.2)
         ++ (match fields_config with
             | none => []
             | some fc =>
                (if !fc.text_fields.isEmpty then
                  ["text_fields='" ++ to_json_string_text fc.text_fields ++ "'"]
                 else [])
                ++ (if !fc.json_fields.isEmpty then
                      ["json_fields='" ++ to_json_string_json fc.json_fields ++ "'"]
                    else [])
                ++ (if !fc.numeric_fields.isEmpty then
                      ["numeric_fields='" ++
                        to_json_string_simple fc.numeric_fields ++ "'"]
                    else [])
                ++ (if !fc.boolean_fields.isEmpty then
                      ["boolean_fields='" ++
                        to_json_string_simple fc.boolean_fields ++ "'"]
                    else [])
                ++ (if !fc.datetime_fields.isEmpty then
                      ["datetime_fields='" ++
                        to_json_string_simple fc.datetime_fields ++ "'"]
                    else []))) ++ ")" := by
  unfold Bm25Index_with_clause
  congr 1
  congr 1
  simp only [Bm25Index_with_parts]
  rw [foldl_append_eq_map]
  rcases fields_config with _ | fc
  · simp
  · by_cases h1 : fc.text_fields.isEmpty <;>
    by_cases h2 : fc.json_fields.isEmpty <;>
    by_cases h3 : fc.numeric_fields.isEmpty <;>
    by_cases h4 : fc.boolean_fields.isEmpty <;>
    by_cases h5 : fc.datetime_fields.isEmpty <;>
      simp [h1, h2, h3, h4, h5, List.append_assoc]
